import Mathlib

/-!
# Verification of the vnstock-mcp tool server

A shallow embedding of `src/vnstock_mcp/server.py`.  The server is a thin
wrapper: each MCP tool accepts parameters, calls into two external libraries
(the `vnstock` market-data library and the `pypfopt` optimization library),
shapes the result into JSON, and returns it, or returns a textual error.

External library calls are modelled as oracles collected in an `Env`
structure: each oracle returns either a normal value (`PyResult.ok`) or a
raised exception carrying its message (`PyResult.exc`), matching Python
semantics where any external call may raise.  The Python `float` parameters
(risk-free rate, weights, prices) are modelled as rationals; the claims
proved here depend only on exact arithmetic identities (rounding to a fixed
number of decimal places) that hold equally for rationals.  A pandas
DataFrame of records is a `List Rec`; a per-symbol price series is a list of
(date, close) pairs with dates as integers.
-/

namespace VnstockMcp

/-- Result of a call into external Python code: a normal value, or a raised
exception carrying the exception's message (`str(e)` in the source). -/
inductive PyResult (α : Type) where
  | ok : α → PyResult α
  | exc : String → PyResult α
deriving DecidableEq

/-- A tool's returned value: a plain-text string (errors, "no data"
messages) or a JSON-serialized payload (`df.to_json` / `json.dumps` in the
source, modelled by the structured value that is serialized). -/
inductive Out (α : Type) where
  | text : String → Out α
  | json : α → Out α
deriving DecidableEq

/-- One record (row) of a fetched DataFrame.  The `yearReport` column is
singled out because the fundamentals tools sort on it; the remaining
columns are opaque key/value pairs. -/
structure Rec where
  yearReport : Int
  fields : List (String × String)
deriving DecidableEq

/-- A per-symbol price series: (date, close) pairs, as built from
`df[["time", "close"]]` with the `time` column as index. -/
abbrev Series := List (Int × ℚ)

/-- The cleaned price table handed to the estimators: per-symbol series
restricted to the dates that survived `dropna`. -/
abbrev CleanTable := List (String × Series)

/-- Expected-return vector: symbol to annualized expected return. -/
abbrev RetVec := List (String × ℚ)

/-- Covariance matrix produced by one of the `risk_models` estimators. -/
abbrev CovMatrix := List (List ℚ)

/-- Outcome of one `EfficientFrontier` solve (the solve, the
`portfolio_performance` call and `clean_weights` together): cleaned
weights plus the performance triple, or a raised `OptimizationError`, or
any other raised exception. -/
inductive SolveOutcome where
  | ok : List (String × ℚ) → ℚ × ℚ × ℚ → SolveOutcome
  | optError : String → SolveOutcome
  | exc : String → SolveOutcome
deriving DecidableEq

/-- The environment of external calls made by the server: one oracle per
distinct call into `vnstock` / `pypfopt`.  Matching Python, every oracle
may raise (`PyResult.exc`). -/
structure Env where
  /-- `Quote(symbol, source="VCI").history(start, end, interval)` in
  `get_stock_history` (symbol, start, end, interval). -/
  qhistory : String → String → String → String → PyResult (List Rec)
  /-- `Quote(symbol, source="VCI").history(start, end, "1D")` restricted to
  the (time, close) columns, as used by the three portfolio tools. -/
  fetchHistory : String → String → String → PyResult Series
  /-- `expected_returns.mean_historical_return(df, returns_data=False,
  compounding=False, frequency=252, log_returns=flag)`. -/
  meanHist : CleanTable → Bool → PyResult RetVec
  /-- `risk_models.sample_cov(df)`. -/
  sample_cov : CleanTable → PyResult CovMatrix
  /-- `risk_models.ledoit_wolf_shrinkage(df)`. -/
  ledoit_wolf : CleanTable → PyResult CovMatrix
  /-- `risk_models.exp_cov(df)`. -/
  exp_cov : CleanTable → PyResult CovMatrix
  /-- `risk_models.semicovariance(df)`. -/
  semicov : CleanTable → PyResult CovMatrix
  /-- `EfficientFrontier(mu, S).max_sharpe(risk_free_rate)` followed by
  `portfolio_performance` and `clean_weights`. -/
  maxSharpe : RetVec → CovMatrix → ℚ → SolveOutcome
  /-- `EfficientFrontier(mu, S).min_volatility()` followed by
  `portfolio_performance` and `clean_weights`. -/
  minVol : RetVec → CovMatrix → SolveOutcome
  /-- `EfficientFrontier(mu, S).max_quadratic_utility(risk_aversion)`
  followed by `portfolio_performance` and `clean_weights`. -/
  maxUtil : RetVec → CovMatrix → ℚ → SolveOutcome
  /-- `Vnstock().stock(symbol, "VCI").finance.income_statement(period="year",
  lang)` (uppercased symbol, lang). -/
  income_statement : String → String → PyResult (List Rec)
  /-- `finance.balance_sheet(period="year", lang)`. -/
  balance_sheet : String → String → PyResult (List Rec)
  /-- `finance.cash_flow(period="year", lang)`. -/
  cash_flow : String → String → PyResult (List Rec)
  /-- `finance.ratio(period="year", lang)`. -/
  ratioRaw : String → String → PyResult (List Rec)
  /-- `flatten_hierarchical_index(df, separator="_",
  handle_duplicates=True, drop_levels=0)`. -/
  flattenIdx : List Rec → PyResult (List Rec)
  /-- `Vnstock().stock(symbol, "TCBS").company.dividends()`. -/
  dividends : String → PyResult (List Rec)
  /-- `Vnstock().stock(symbol, "VCI")` plus the `.company` attribute access
  in `get_company_info`; carried out before the `info_type` dispatch. -/
  companyCtor : String → PyResult Unit
  /-- `company.overview()`. -/
  overview : String → PyResult (List Rec)
  /-- `company.shareholders()`. -/
  shareholders : String → PyResult (List Rec)
  /-- `company.officers(filter_by="working")`. -/
  officers : String → PyResult (List Rec)
  /-- `company.subsidiaries(filter_by="all")`. -/
  subsidiaries : String → PyResult (List Rec)
  /-- `company.events()`. -/
  events : String → PyResult (List Rec)
  /-- `company.news()`. -/
  news : String → PyResult (List Rec)
  /-- `company.reports()`. -/
  reports : String → PyResult (List Rec)
  /-- `company.ratio_summary()`. -/
  ratioSummary : String → PyResult (List Rec)
  /-- `company.trading_stats()`. -/
  trading_stats : String → PyResult (List Rec)
  /-- `fund.details.nav_report(symbol)`. -/
  nav_report : String → PyResult (List Rec)
  /-- `fund.details.top_holding(symbol)`. -/
  top_holding : String → PyResult (List Rec)
  /-- `fund.details.industry_holding(symbol)`. -/
  industry_holding : String → PyResult (List Rec)
  /-- `fund.details.asset_holding(symbol)`. -/
  asset_holding : String → PyResult (List Rec)

/-- Python's `str.upper()` on the ASCII symbols used by the server:
uppercase every character of the string. -/
def pyUpper (s : String) : String :=
  ⟨s.data.map Char.toUpper⟩

/-- Python's `round(q, nd)`: round to `nd` decimal places.  (Python uses
round-half-to-even on floats; the tie-breaking rule is immaterial to every
property proved here, which only uses that the result is within half an ulp
of the argument.) -/
def pyRound (nd : Nat) (q : ℚ) : ℚ :=
  (round (q * (10 ^ nd : ℚ)) : ℚ) / (10 ^ nd : ℚ)

/-- `round(v, 4)`, applied to weights. -/
def round4 (q : ℚ) : ℚ := pyRound 4 q

/-- `round(v, 6)`, applied to performance scalars. -/
def round6 (q : ℚ) : ℚ := pyRound 6 q

/-- Sum of a weight mapping's values. -/
def wsum (l : List (String × ℚ)) : ℚ := (l.map (fun p => p.2)).sum

/-- Round every weight of a weight mapping to 4 decimal places
(`{k: round(v, 4) for k, v in clean_weights.items()}`). -/
def roundWeights (l : List (String × ℚ)) : List (String × ℚ) :=
  l.map (fun p => (p.1, round4 p.2))

/-- Lookup of a date in a price series (the date-indexed access the outer
join performs on each per-symbol frame). -/
def plookup (d : Int) : Series → Option ℚ
  | [] => none
  | (d', v) :: rest => if d' = d then some v else plookup d rest

/-- The dates of one fetched series. -/
def seriesDates (ser : Series) : List Int := ser.map Prod.fst

/-- The union of all dates (the index produced by
`pd.concat(all_data, axis=1)`, an outer join on the date index). -/
def allDates (data : List (String × Series)) : List Int :=
  (data.flatMap (fun p => seriesDates p.2)).dedup

/-- The dates surviving `combined_df.dropna()`: dates at which every
requested symbol has a close price. -/
def cleanedDates (data : List (String × Series)) : List Int :=
  (allDates data).filter (fun d => data.all (fun p => (plookup d p.2).isSome))

/-- The cleaned price table: each symbol's series restricted to the
surviving dates.  Its row count is `(cleanedDates data).length`. -/
def cleanTable (data : List (String × Series)) : CleanTable :=
  data.map (fun p =>
    (p.1, (cleanedDates data).filterMap (fun d => (plookup d p.2).map (fun v => (d, v)))))

/-- The per-symbol fetch loop shared (verbatim in the source) by
`calculate_returns`, `optimize_portfolio` and `full_portfolio_optimization`:
for each symbol in order, fetch its history; a raised exception returns
`"Error fetching data for <symbol>: <msg>"` immediately, an empty frame
returns `"No data found for <symbol> between <start> and <end>"`
immediately.  The first component records which symbols were actually
fetched (in order); the second is the collected data or the early-return
message. -/
def fetchAll (env : Env) (start_date end_date : String) :
    List String → List String × Except String (List (String × Series))
  | [] => ([], Except.ok [])
  | s :: rest =>
    match env.fetchHistory s start_date end_date with
    | PyResult.exc m =>
      ([s], Except.error ("Error fetching data for " ++ s ++ ": " ++ m))
    | PyResult.ok ser =>
      if ser.isEmpty then
        ([s], Except.error ("No data found for " ++ s ++ " between " ++
          start_date ++ " and " ++ end_date))
      else
        match fetchAll env start_date end_date rest with
        | (tr, Except.error e) => (s :: tr, Except.error e)
        | (tr, Except.ok d) => (s :: tr, Except.ok ((s, ser) :: d))

/-- The covariance-method dispatch: the `if/elif` chain on
`covariance_method`, whose final `else` falls back to
`risk_models.sample_cov`. -/
def covSelect (env : Env) (method : String) (tbl : CleanTable) : PyResult CovMatrix :=
  if method = "sample_cov" then env.sample_cov tbl
  else if method = "ledoit_wolf" then env.ledoit_wolf tbl
  else if method = "exp_cov" then env.exp_cov tbl
  else if method = "semicovariance" then env.semicov tbl
  else env.sample_cov tbl

/-- Output structure of `optimize_portfolio` (the dict passed to
`json.dumps`; the nested `performance_metrics` dict is flattened into the
three scalar fields). -/
structure OptimizeOutput where
  symbols : List String
  start_date : String
  end_date : String
  optimization_type : String
  risk_free_rate : ℚ
  covariance_method : String
  log_returns : Bool
  optimal_weights : List (String × ℚ)
  expected_annual_return : ℚ
  annual_volatility : ℚ
  sharpe : ℚ
deriving DecidableEq

/-- Output structure of `calculate_returns`. -/
structure ReturnsOutput where
  symbols : List String
  start_date : String
  end_date : String
  method : String
  log_returns : Bool
  expected_returns : RetVec
  frequency : Nat
  compounding : Bool
deriving DecidableEq

/-- A successful single-objective entry of
`full_portfolio_optimization`. -/
structure ObjSuccess where
  weights : List (String × ℚ)
  expected_annual_return : ℚ
  annual_volatility : ℚ
  sharpe : ℚ
  optimization_type : String
deriving DecidableEq

/-- One entry of `optimized_portfolios`: `{"success": True, ...}` or
`{"success": False, "error": ...}`. -/
inductive ObjEntry where
  | success : ObjSuccess → ObjEntry
  | failure : String → ObjEntry
deriving DecidableEq

/-- The `success` flag of an entry. -/
def ObjEntry.isSuccess : ObjEntry → Bool
  | ObjEntry.success _ => true
  | ObjEntry.failure _ => false

/-- `[k for k, v in optimizations.items() if v.get("success", False)]`. -/
def successList (entries : List (String × ObjEntry)) : List String :=
  (entries.filter (fun p => p.2.isSuccess)).map (fun p => p.1)

/-- Output structure of `full_portfolio_optimization` (the `summary` dict
is flattened into the two final fields). -/
structure FullOutput where
  symbols : List String
  start_date : String
  end_date : String
  risk_free_rate : ℚ
  risk_aversion : ℚ
  covariance_method : String
  log_returns : Bool
  optimized_portfolios : List (String × ObjEntry)
  total_portfolios : Nat
  successful_optimizations : List String
deriving DecidableEq

/-- One objective's `try`/`except OptimizationError` block in
`full_portfolio_optimization`: a successful solve yields a success entry
with rounded weights and performance; a raised `OptimizationError` yields
a failure entry with the objective's message prefix; any other exception
propagates to the tool's outermost handler, whose message is
`"Error in full portfolio optimization: <msg>"`. -/
def runObj (name failPrefix : String) (outcome : SolveOutcome) :
    Except String ObjEntry :=
  match outcome with
  | SolveOutcome.ok w perf =>
    Except.ok (ObjEntry.success
      { weights := roundWeights w
        expected_annual_return := round6 perf.1
        annual_volatility := round6 perf.2.1
        sharpe := round6 perf.2.2
        optimization_type := name })
  | SolveOutcome.optError m => Except.ok (ObjEntry.failure (failPrefix ++ m))
  | SolveOutcome.exc m =>
    Except.error ("Error in full portfolio optimization: " ++ m)

/-- The three objective solves of `full_portfolio_optimization`, run in
source order against the shared `(mu, S)` pair. -/
def runObjectives (env : Env) (mu : RetVec) (S : CovMatrix) (rf ra : ℚ) :
    Except String (List (String × ObjEntry)) :=
  match runObj "max_sharpe" "Max Sharpe optimization failed: " (env.maxSharpe mu S rf) with
  | Except.error e => Except.error e
  | Except.ok e1 =>
    match runObj "min_volatility" "Min volatility optimization failed: " (env.minVol mu S) with
    | Except.error e => Except.error e
    | Except.ok e2 =>
      match runObj "max_utility" "Max utility optimization failed: " (env.maxUtil mu S ra) with
      | Except.error e => Except.error e
      | Except.ok e3 =>
        Except.ok [("max_sharpe", e1), ("min_volatility", e2), ("max_utility", e3)]

/-- The `calculate_returns` tool. -/
def calculate_returns (env : Env) (symbols : List String)
    (start_date end_date method : String) (log_returns : Bool) :
    Out ReturnsOutput :=
  match (fetchAll env start_date end_date symbols).2 with
  | Except.error s => Out.text s
  | Except.ok data =>
    if data.isEmpty then Out.text "No data found for any symbols"
    else if (cleanedDates data).isEmpty then
      Out.text "No complete data available after cleaning missing values"
    else
      match env.meanHist (cleanTable data) log_returns with
      | PyResult.exc m => Out.text ("Error calculating returns: " ++ m)
      | PyResult.ok mu =>
        Out.json
          { symbols := symbols
            start_date := start_date
            end_date := end_date
            method := method
            log_returns := log_returns
            expected_returns := mu
            frequency := 252
            compounding := false }

/-- The `optimize_portfolio` tool: fetch, clean, estimate, select the
covariance estimator, run `max_sharpe`, round and serialize.  A raised
`OptimizationError` is reported as `"Optimization failed: <msg>"`; any
other exception reaching the outermost handler as
`"Error optimizing portfolio: <msg>"`. -/
def optimize_portfolio (env : Env) (symbols : List String)
    (start_date end_date : String) (risk_free_rate : ℚ)
    (covariance_method : String) (log_returns : Bool) :
    Out OptimizeOutput :=
  match (fetchAll env start_date end_date symbols).2 with
  | Except.error s => Out.text s
  | Except.ok data =>
    if data.isEmpty then Out.text "No data found for any symbols"
    else if (cleanedDates data).isEmpty then
      Out.text "No complete data available after cleaning missing values"
    else
      match env.meanHist (cleanTable data) log_returns with
      | PyResult.exc m => Out.text ("Error optimizing portfolio: " ++ m)
      | PyResult.ok mu =>
        match covSelect env covariance_method (cleanTable data) with
        | PyResult.exc m => Out.text ("Error optimizing portfolio: " ++ m)
        | PyResult.ok S =>
          match env.maxSharpe mu S risk_free_rate with
          | SolveOutcome.exc m => Out.text ("Error optimizing portfolio: " ++ m)
          | SolveOutcome.optError m => Out.text ("Optimization failed: " ++ m)
          | SolveOutcome.ok w perf =>
            Out.json
              { symbols := symbols
                start_date := start_date
                end_date := end_date
                optimization_type := "max_sharpe"
                risk_free_rate := risk_free_rate
                covariance_method := covariance_method
                log_returns := log_returns
                optimal_weights := roundWeights w
                expected_annual_return := round6 perf.1
                annual_volatility := round6 perf.2.1
                sharpe := round6 perf.2.2 }

/-- The `full_portfolio_optimization` tool: same fetch/clean/estimate
pipeline, then all three objectives with per-objective
`except OptimizationError` isolation, then the summary. -/
def full_portfolio_optimization (env : Env) (symbols : List String)
    (start_date end_date : String) (risk_free_rate risk_aversion : ℚ)
    (covariance_method : String) (log_returns : Bool) :
    Out FullOutput :=
  match (fetchAll env start_date end_date symbols).2 with
  | Except.error s => Out.text s
  | Except.ok data =>
    if data.isEmpty then Out.text "No data found for any symbols"
    else if (cleanedDates data).isEmpty then
      Out.text "No complete data available after cleaning missing values"
    else
      match env.meanHist (cleanTable data) log_returns with
      | PyResult.exc m => Out.text ("Error in full portfolio optimization: " ++ m)
      | PyResult.ok mu =>
        match covSelect env covariance_method (cleanTable data) with
        | PyResult.exc m => Out.text ("Error in full portfolio optimization: " ++ m)
        | PyResult.ok S =>
          match runObjectives env mu S risk_free_rate risk_aversion with
          | Except.error s => Out.text s
          | Except.ok entries =>
            Out.json
              { symbols := symbols
                start_date := start_date
                end_date := end_date
                risk_free_rate := risk_free_rate
                risk_aversion := risk_aversion
                covariance_method := covariance_method
                log_returns := log_returns
                optimized_portfolios := entries
                total_portfolios := (successList entries).length
                successful_optimizations := successList entries }

/-- Insert a record into a list sorted ascending by `yearReport`. -/
def insertByYear (r : Rec) : List Rec → List Rec
  | [] => [r]
  | x :: xs =>
    if r.yearReport ≤ x.yearReport then r :: x :: xs
    else x :: insertByYear r xs

/-- `df.sort_values("yearReport")`: sort the records ascending by the
`yearReport` column. -/
def sortByYear : List Rec → List Rec
  | [] => []
  | x :: xs => insertByYear x (sortByYear xs)

/-- The `get_stock_history` tool. -/
def get_stock_history (env : Env)
    (symbol start_date end_date interval : String) : Out (List Rec) :=
  match env.qhistory symbol start_date end_date interval with
  | PyResult.exc m => Out.text ("Error fetching stock data: " ++ m)
  | PyResult.ok recs =>
    if recs.isEmpty then
      Out.text ("No data found for " ++ symbol ++ " between " ++
        start_date ++ " and " ++ end_date)
    else Out.json recs

/-- The `get_income_statement` tool: fetch for the uppercased symbol, then
sort ascending by `yearReport`. -/
def get_income_statement (env : Env) (symbol lang : String) : Out (List Rec) :=
  match env.income_statement (pyUpper symbol) lang with
  | PyResult.exc m =>
    Out.text ("Error fetching income statement for " ++ symbol ++ ": " ++ m)
  | PyResult.ok recs =>
    if recs.isEmpty then
      Out.text ("No income statement data found for " ++ symbol)
    else Out.json (sortByYear recs)

/-- The `get_balance_sheet` tool. -/
def get_balance_sheet (env : Env) (symbol lang : String) : Out (List Rec) :=
  match env.balance_sheet (pyUpper symbol) lang with
  | PyResult.exc m =>
    Out.text ("Error fetching balance sheet for " ++ symbol ++ ": " ++ m)
  | PyResult.ok recs =>
    if recs.isEmpty then
      Out.text ("No balance sheet data found for " ++ symbol)
    else Out.json (sortByYear recs)

/-- The `get_cash_flow` tool. -/
def get_cash_flow (env : Env) (symbol lang : String) : Out (List Rec) :=
  match env.cash_flow (pyUpper symbol) lang with
  | PyResult.exc m =>
    Out.text ("Error fetching cash flow for " ++ symbol ++ ": " ++ m)
  | PyResult.ok recs =>
    if recs.isEmpty then
      Out.text ("No cash flow data found for " ++ symbol)
    else Out.json (sortByYear recs)

/-- The `get_financial_ratios` tool: fetch, flatten the hierarchical
index, sort by `yearReport`.  (In the source the sort is guarded by a
check that the flattened frame has a `yearReport` column; a `Rec` always
carries that column, so the guard is always taken.) -/
def get_financial_ratios (env : Env) (symbol lang : String) : Out (List Rec) :=
  match env.ratioRaw (pyUpper symbol) lang with
  | PyResult.exc m =>
    Out.text ("Error fetching financial ratios for " ++ symbol ++ ": " ++ m)
  | PyResult.ok recs =>
    if recs.isEmpty then
      Out.text ("No financial ratio data found for " ++ symbol)
    else
      match env.flattenIdx recs with
      | PyResult.exc m =>
        Out.text ("Error fetching financial ratios for " ++ symbol ++ ": " ++ m)
      | PyResult.ok flat => Out.json (sortByYear flat)

/-- The `get_dividend_history` tool. -/
def get_dividend_history (env : Env) (symbol : String) : Out (List Rec) :=
  match env.dividends (pyUpper symbol) with
  | PyResult.exc m =>
    Out.text ("Error fetching dividend history for " ++ symbol ++ ": " ++ m)
  | PyResult.ok recs =>
    if recs.isEmpty then Out.text ("No dividend data found for " ++ symbol)
    else Out.json recs

/-- The nine valid values of `info_type` in `get_company_info`. -/
def validInfoTypes : List String :=
  ["overview", "shareholders", "officers", "subsidiaries", "events",
   "news", "reports", "ratio_summary", "trading_stats"]

/-- A single-quote character, written by code point. -/
def sq : String := (Char.ofNat 39).toString

/-- The exact invalid-`info_type` message of `get_company_info`. -/
def invalidInfoTypeMsg (info_type : String) : String :=
  "Invalid info_type " ++ sq ++ info_type ++ sq ++
    ". Valid types: overview, shareholders, officers, subsidiaries, events, news, reports, ratio_summary, trading_stats"

/-- The `if/elif` dispatch on `info_type` in `get_company_info`: `none`
means the final `else` (invalid type) was reached. -/
def companyFetch (env : Env) (u : String) (info_type : String) :
    Option (PyResult (List Rec)) :=
  if info_type = "overview" then some (env.overview u)
  else if info_type = "shareholders" then some (env.shareholders u)
  else if info_type = "officers" then some (env.officers u)
  else if info_type = "subsidiaries" then some (env.subsidiaries u)
  else if info_type = "events" then some (env.events u)
  else if info_type = "news" then some (env.news u)
  else if info_type = "reports" then some (env.reports u)
  else if info_type = "ratio_summary" then some (env.ratioSummary u)
  else if info_type = "trading_stats" then some (env.trading_stats u)
  else none

/-- The `get_company_info` tool.  The stock/company handle is constructed
(and may raise) before the `info_type` dispatch is reached; the `lang`
parameter is accepted but never passed on, exactly as in the source. -/
def get_company_info (env : Env) (symbol info_type lang : String) :
    Out (List Rec) :=
  match env.companyCtor (pyUpper symbol) with
  | PyResult.exc m =>
    Out.text ("Error fetching " ++ info_type ++ " for " ++ symbol ++ ": " ++ m)
  | PyResult.ok _ =>
    match companyFetch env (pyUpper symbol) info_type with
    | none => Out.text (invalidInfoTypeMsg info_type)
    | some (PyResult.exc m) =>
      Out.text ("Error fetching " ++ info_type ++ " for " ++ symbol ++ ": " ++ m)
    | some (PyResult.ok recs) =>
      if recs.isEmpty then
        Out.text ("No " ++ info_type ++ " data found for " ++ symbol)
      else Out.json recs

/-- The `get_fund_nav_report` tool. -/
def get_fund_nav_report (env : Env) (symbol : String) : Out (List Rec) :=
  match env.nav_report (pyUpper symbol) with
  | PyResult.exc m =>
    Out.text ("Error fetching NAV report for " ++ symbol ++ ": " ++ m)
  | PyResult.ok recs =>
    if recs.isEmpty then Out.text ("No NAV data found for fund: " ++ symbol)
    else Out.json recs

/-- The `get_fund_top_holdings` tool. -/
def get_fund_top_holdings (env : Env) (symbol : String) : Out (List Rec) :=
  match env.top_holding (pyUpper symbol) with
  | PyResult.exc m =>
    Out.text ("Error fetching top holdings for " ++ symbol ++ ": " ++ m)
  | PyResult.ok recs =>
    if recs.isEmpty then
      Out.text ("No top holdings data found for fund: " ++ symbol)
    else Out.json recs

/-- The `get_fund_industry_allocation` tool. -/
def get_fund_industry_allocation (env : Env) (symbol : String) : Out (List Rec) :=
  match env.industry_holding (pyUpper symbol) with
  | PyResult.exc m =>
    Out.text ("Error fetching industry allocation for " ++ symbol ++ ": " ++ m)
  | PyResult.ok recs =>
    if recs.isEmpty then
      Out.text ("No industry allocation data found for fund: " ++ symbol)
    else Out.json recs

/-- The `get_fund_asset_allocation` tool. -/
def get_fund_asset_allocation (env : Env) (symbol : String) : Out (List Rec) :=
  match env.asset_holding (pyUpper symbol) with
  | PyResult.exc m =>
    Out.text ("Error fetching asset allocation for " ++ symbol ++ ": " ++ m)
  | PyResult.ok recs =>
    if recs.isEmpty then
      Out.text ("No asset allocation data found for fund: " ++ symbol)
    else Out.json recs

/-- A concrete, everywhere-successful environment used to instantiate the
theorems: one asset with two observations, every estimator and solver
returning a fixed small value. -/
def baseEnv : Env where
  qhistory := fun _ _ _ _ => PyResult.ok [⟨2020, []⟩]
  fetchHistory := fun _ _ _ => PyResult.ok [(0, 10), (1, 11)]
  meanHist := fun _ _ => PyResult.ok [("A", 1/4)]
  sample_cov := fun _ => PyResult.ok [[1/9]]
  ledoit_wolf := fun _ => PyResult.ok [[1/8]]
  exp_cov := fun _ => PyResult.ok [[1/7]]
  semicov := fun _ => PyResult.ok [[1/6]]
  maxSharpe := fun _ _ _ => SolveOutcome.ok [("A", 1)] (1/4, 1/3, 7/10)
  minVol := fun _ _ => SolveOutcome.ok [("A", 1)] (1/5, 1/4, 1/2)
  maxUtil := fun _ _ _ => SolveOutcome.ok [("A", 1)] (1/6, 1/5, 2/5)
  income_statement := fun _ _ => PyResult.ok [⟨2021, []⟩, ⟨2019, []⟩]
  balance_sheet := fun _ _ => PyResult.ok [⟨2021, []⟩, ⟨2019, []⟩]
  cash_flow := fun _ _ => PyResult.ok [⟨2021, []⟩, ⟨2019, []⟩]
  ratioRaw := fun _ _ => PyResult.ok [⟨2021, []⟩, ⟨2019, []⟩]
  flattenIdx := fun recs => PyResult.ok recs
  dividends := fun _ => PyResult.ok [⟨2020, []⟩]
  companyCtor := fun _ => PyResult.ok ()
  overview := fun _ => PyResult.ok [⟨2020, []⟩]
  shareholders := fun _ => PyResult.ok [⟨2020, []⟩]
  officers := fun _ => PyResult.ok [⟨2020, []⟩]
  subsidiaries := fun _ => PyResult.ok [⟨2020, []⟩]
  events := fun _ => PyResult.ok [⟨2020, []⟩]
  news := fun _ => PyResult.ok [⟨2020, []⟩]
  reports := fun _ => PyResult.ok [⟨2020, []⟩]
  ratioSummary := fun _ => PyResult.ok [⟨2020, []⟩]
  trading_stats := fun _ => PyResult.ok [⟨2020, []⟩]
  nav_report := fun _ => PyResult.ok [⟨2020, []⟩]
  top_holding := fun _ => PyResult.ok [⟨2020, []⟩]
  industry_holding := fun _ => PyResult.ok [⟨2020, []⟩]
  asset_holding := fun _ => PyResult.ok [⟨2020, []⟩]

/-- The four recognized `covariance_method` values. -/
def validCovMethods : List String :=
  ["sample_cov", "ledoit_wolf", "exp_cov", "semicovariance"]

/-- Forget the echoed `covariance_method` request parameter of an
`optimize_portfolio` output. -/
def stripCovOpt : Out OptimizeOutput → Out OptimizeOutput
  | Out.text s => Out.text s
  | Out.json o => Out.json { o with covariance_method := "" }

/-- Forget the echoed `covariance_method` request parameter of a
`full_portfolio_optimization` output. -/
def stripCovFull : Out FullOutput → Out FullOutput
  | Out.text s => Out.text s
  | Out.json o => Out.json { o with covariance_method := "" }

/-- A symbol whose fetch succeeds with a nonempty frame. -/
def fetchGood (env : Env) (start_date end_date s : String) : Prop :=
  ∃ ser, env.fetchHistory s start_date end_date = PyResult.ok ser ∧ ser ≠ []

/-- A symbol whose fetch fails: either the fetch raises, or it returns an
empty frame. -/
def fetchBad (env : Env) (start_date end_date s : String) : Prop :=
  (∃ m, env.fetchHistory s start_date end_date = PyResult.exc m) ∨
    env.fetchHistory s start_date end_date = PyResult.ok []

/-- The early-return message produced by a failing symbol in the shared
fetch loop. -/
def fetchFailMsg (env : Env) (start_date end_date s : String) : String :=
  match env.fetchHistory s start_date end_date with
  | PyResult.exc m => "Error fetching data for " ++ s ++ ": " ++ m
  | PyResult.ok _ =>
    "No data found for " ++ s ++ " between " ++ start_date ++ " and " ++ end_date

/-- The ordering on records used by `df.sort_values("yearReport")`. -/
def yLe (a b : Rec) : Prop := a.yearReport ≤ b.yearReport

/-- Strings of the shape `"Error <doing something>: <message>"`. -/
def errorForm (s : String) : Prop :=
  ∃ op msg, s = "Error " ++ op ++ ": " ++ msg

/-! ## General lemmas -/

theorem abs_round4_sub (q : ℚ) : |round4 q - q| ≤ 1 / 20000 := by
  have h : |q * (10 ^ 4 : ℚ) - round (q * (10 ^ 4 : ℚ))| ≤ 1 / 2 :=
    abs_sub_round (q * (10 ^ 4 : ℚ))
  have hrw : round4 q - q = -((q * (10 ^ 4 : ℚ) -
      (round (q * (10 ^ 4 : ℚ)) : ℚ)) / (10 ^ 4 : ℚ)) := by
    rw [round4, pyRound]
    field_simp
    ring
  rw [hrw, abs_neg, abs_div]
  rw [show |(10 ^ 4 : ℚ)| = 10 ^ 4 by norm_num]
  rw [div_le_iff₀ (by norm_num : (0:ℚ) < 10 ^ 4)]
  calc |q * (10 ^ 4 : ℚ) - (round (q * (10 ^ 4 : ℚ)) : ℚ)| ≤ 1 / 2 := h
    _ = 1 / 20000 * 10 ^ 4 := by norm_num

theorem round4_nonneg {q : ℚ} (h : 0 ≤ q) : 0 ≤ round4 q := by
  rw [round4, pyRound]
  apply div_nonneg _ (by norm_num : (0:ℚ) ≤ 10 ^ 4)
  have : (0:ℤ) ≤ round (q * (10 ^ 4 : ℚ)) := by
    rw [round_eq]
    apply Int.le_floor.mpr
    push_cast
    nlinarith
  exact_mod_cast this

theorem roundWeights_nonneg {w : List (String × ℚ)}
    (h : ∀ x ∈ w, 0 ≤ x.2) : ∀ x ∈ roundWeights w, 0 ≤ x.2 := by
  intro x hx
  rw [roundWeights, List.mem_map] at hx
  obtain ⟨p, hp, rfl⟩ := hx
  exact round4_nonneg (h p hp)

theorem abs_wsum_roundWeights_sub (w : List (String × ℚ)) :
    |wsum (roundWeights w) - wsum w| ≤ w.length * (1 / 20000) := by
  induction w with
  | nil => simp [wsum, roundWeights]
  | cons p rest ih =>
    have hsum : wsum (roundWeights (p :: rest)) - wsum (p :: rest) =
        (round4 p.2 - p.2) + (wsum (roundWeights rest) - wsum rest) := by
      simp [wsum, roundWeights]
      ring
    rw [hsum]
    calc |(round4 p.2 - p.2) + (wsum (roundWeights rest) - wsum rest)|
        ≤ |round4 p.2 - p.2| + |wsum (roundWeights rest) - wsum rest| := abs_add _ _
      _ ≤ 1 / 20000 + rest.length * (1 / 20000) := by
          exact add_le_add (abs_round4_sub p.2) ih
      _ = (p :: rest).length * (1 / 20000) := by
          simp [List.length_cons]
          ring

theorem roundWeights_length (w : List (String × ℚ)) :
    (roundWeights w).length = w.length := List.length_map _ _

theorem char_toUpper_toUpper (c : Char) : c.toUpper.toUpper = c.toUpper := by
  unfold Char.toUpper
  by_cases h : c.toNat ≥ 97 ∧ c.toNat ≤ 122
  · rw [if_pos h]
    have hv : (c.toNat - 32).isValidChar := Or.inl (by omega)
    have ht : (Char.ofNat (c.toNat - 32)).toNat = c.toNat - 32 := by
      rw [Char.ofNat, dif_pos hv]
      rfl
    rw [if_neg]
    rw [ht]
    omega
  · rw [if_neg h, if_neg h]

theorem pyUpper_pyUpper (s : String) : pyUpper (pyUpper s) = pyUpper s := by
  show String.mk ((s.data.map Char.toUpper).map Char.toUpper) =
    String.mk (s.data.map Char.toUpper)
  rw [List.map_map]
  congr 1
  apply List.map_congr_left
  intro c _
  exact char_toUpper_toUpper c

theorem mem_insertByYear {a r : Rec} {l : List Rec} :
    a ∈ insertByYear r l ↔ a = r ∨ a ∈ l := by
  induction l with
  | nil => simp [insertByYear]
  | cons x xs ih =>
    by_cases h : r.yearReport ≤ x.yearReport
    · simp [insertByYear, h]
    · simp only [insertByYear, if_neg h, List.mem_cons, ih]
      tauto

theorem pairwise_insertByYear {r : Rec} {l : List Rec}
    (h : l.Pairwise yLe) : (insertByYear r l).Pairwise yLe := by
  induction l with
  | nil => simp [insertByYear]
  | cons x xs ih =>
    rcases List.pairwise_cons.mp h with ⟨hx, hxs⟩
    by_cases hc : r.yearReport ≤ x.yearReport
    · rw [insertByYear, if_pos hc]
      refine List.pairwise_cons.mpr ⟨?_, h⟩
      intro y hy
      rcases List.mem_cons.mp hy with rfl | hy'
      · exact hc
      · exact le_trans hc (hx y hy')
    · rw [insertByYear, if_neg hc]
      refine List.pairwise_cons.mpr ⟨?_, ih hxs⟩
      intro y hy
      rcases mem_insertByYear.mp hy with rfl | hy'
      · exact le_of_lt (lt_of_not_le hc)
      · exact hx y hy'

theorem sortByYear_pairwise (l : List Rec) : (sortByYear l).Pairwise yLe := by
  induction l with
  | nil => simp [sortByYear]
  | cons x xs ih => exact pairwise_insertByYear ih

theorem plookup_isSome {d : Int} {ser : Series} :
    (plookup d ser).isSome = true ↔ d ∈ seriesDates ser := by
  induction ser with
  | nil => simp [plookup, seriesDates]
  | cons p rest ih =>
    by_cases h : p.1 = d
    · simp [plookup, h, seriesDates]
    · simp only [plookup, if_neg h, seriesDates, List.map_cons, List.mem_cons, ih]
      constructor
      · intro hmem
        exact Or.inr (by simpa [seriesDates] using hmem)
      · rintro (rfl | hmem)
        · exact absurd rfl h
        · simpa [seriesDates] using hmem

theorem cleanedDates_nodup (data : List (String × Series)) :
    (cleanedDates data).Nodup :=
  (List.nodup_dedup _).filter _

theorem cleanedDates_subset {data : List (String × Series)}
    {p : String × Series} (hp : p ∈ data) :
    ∀ d ∈ cleanedDates data, d ∈ seriesDates p.2 := by
  intro d hd
  rw [cleanedDates, List.mem_filter] at hd
  have hall := List.all_eq_true.mp hd.2 p hp
  exact plookup_isSome.mp (by simpa using hall)

theorem cleanedDates_length_le {data : List (String × Series)}
    {p : String × Series} (hp : p ∈ data) :
    (cleanedDates data).length ≤ p.2.length := by
  have h1 : (cleanedDates data).toFinset.card = (cleanedDates data).length :=
    List.toFinset_card_of_nodup (cleanedDates_nodup data)
  have h2 : (cleanedDates data).toFinset ⊆ (seriesDates p.2).toFinset := by
    intro x hx
    rw [List.mem_toFinset] at hx ⊢
    exact cleanedDates_subset hp x hx
  calc (cleanedDates data).length
      = (cleanedDates data).toFinset.card := h1.symm
    _ ≤ (seriesDates p.2).toFinset.card := Finset.card_le_card h2
    _ ≤ (seriesDates p.2).length := List.toFinset_card_le _
    _ = p.2.length := List.length_map _ _

theorem cleanedDates_complete {data : List (String × Series)} :
    ∀ d ∈ cleanedDates data, ∀ p ∈ data, (plookup d p.2).isSome = true := by
  intro d hd p hp
  rw [cleanedDates, List.mem_filter] at hd
  simpa using List.all_eq_true.mp hd.2 p hp

theorem covSelect_unknown (env : Env) (tbl : CleanTable) {m : String}
    (h : m ∉ validCovMethods) : covSelect env m tbl = env.sample_cov tbl := by
  simp only [validCovMethods, List.mem_cons, List.not_mem_nil, or_false,
    not_or] at h
  obtain ⟨h1, h2, h3, h4⟩ := h
  simp [covSelect, h1, h2, h3, h4]

theorem covSelect_sample (env : Env) (tbl : CleanTable) :
    covSelect env "sample_cov" tbl = env.sample_cov tbl := by
  simp [covSelect]

theorem fetchAll_early_abort (env : Env) (start_date end_date : String)
    (pre : List String) (s : String) (post : List String)
    (hpre : ∀ t ∈ pre, fetchGood env start_date end_date t)
    (hbad : fetchBad env start_date end_date s) :
    fetchAll env start_date end_date (pre ++ s :: post) =
      (pre ++ [s], Except.error (fetchFailMsg env start_date end_date s)) := by
  induction pre with
  | nil =>
    simp only [List.nil_append]
    rcases hbad with ⟨m, hm⟩ | hm
    · simp [fetchAll, hm, fetchFailMsg]
    · simp [fetchAll, hm, fetchFailMsg]
  | cons t pre ih =>
    obtain ⟨ser, hser, hne⟩ := hpre t (List.mem_cons_self _ _)
    have ih' := ih (fun u hu => hpre u (List.mem_cons_of_mem _ hu))
    have hemp : ser.isEmpty = false := by
      cases ser with
      | nil => exact absurd rfl hne
      | cons a l => rfl
    simp [fetchAll, hser, hemp, ih']

theorem length_filterMap_of_isSome {α β : Type} (f : α → Option β)
    (l : List α) (h : ∀ a ∈ l, (f a).isSome = true) :
    (l.filterMap f).length = l.length := by
  induction l with
  | nil => rfl
  | cons a rest ih =>
    have ha := h a (List.mem_cons_self _ _)
    cases hf : f a with
    | none => rw [hf] at ha; exact absurd ha (by simp)
    | some b =>
      rw [List.filterMap_cons, hf]
      simp only [List.length_cons]
      rw [ih (fun x hx => h x (List.mem_cons_of_mem _ hx))]

/-! ## Claim C8 -/

/-- C8: for every set of per-symbol price series, the cleaned price table
(outer join on date, then dropping every row with a missing value) has row
count at most the length of each individual series (hence at most the
shortest), every surviving date has a value for every symbol (no missing
cells), and each column of the cleaned table has exactly one entry per
surviving row. -/
theorem c8_cleaned_table_bounds (data : List (String × Series)) :
    (∀ p ∈ data, (cleanedDates data).length ≤ p.2.length) ∧
    (∀ d ∈ cleanedDates data, ∀ p ∈ data, (plookup d p.2).isSome = true) ∧
    (∀ q ∈ cleanTable data, q.2.length = (cleanedDates data).length) := by
  refine ⟨fun _ hp => cleanedDates_length_le hp, cleanedDates_complete, ?_⟩
  intro q hq
  rw [cleanTable, List.mem_map] at hq
  obtain ⟨p, hp, rfl⟩ := hq
  exact length_filterMap_of_isSome _ _ (fun d hd => by
    have := cleanedDates_complete d hd p hp
    cases hl : plookup d p.2 with
    | none => rw [hl] at this; exact absurd this (by simp)
    | some v => simp)

/-- Witness for C8: two overlapping series; the cleaned table has one row
(the shared date), within both length bounds. -/
theorem c8_witness :
    (∀ p ∈ [("A", [((0:Int), (10:ℚ)), (1, 11)]), ("B", [(1, 20)])],
      (cleanedDates [("A", [((0:Int), (10:ℚ)), (1, 11)]), ("B", [(1, 20)])]).length ≤ p.2.length) ∧
    (∀ d ∈ cleanedDates [("A", [((0:Int), (10:ℚ)), (1, 11)]), ("B", [(1, 20)])],
      ∀ p ∈ [("A", [((0:Int), (10:ℚ)), (1, 11)]), ("B", [(1, 20)])],
      (plookup d p.2).isSome = true) ∧
    (∀ q ∈ cleanTable [("A", [((0:Int), (10:ℚ)), (1, 11)]), ("B", [(1, 20)])],
      q.2.length = (cleanedDates [("A", [((0:Int), (10:ℚ)), (1, 11)]), ("B", [(1, 20)])]).length) :=
  c8_cleaned_table_bounds [("A", [((0:Int), (10:ℚ)), (1, 11)]), ("B", [(1, 20)])]

/-! ## Claim C4 -/

/-- C4: in each of the three portfolio tools, when every per-symbol fetch
succeeds with data but the outer join followed by `dropna` leaves no
complete row, the tool returns the explicit no-complete-data string; and
two series with disjoint date sets always produce that empty condition. -/
theorem c4_empty_after_cleaning (env : Env) (symbols : List String)
    (start_date end_date method cm : String) (rf ra : ℚ) (lr : Bool)
    (data : List (String × Series))
    (hfetch : (fetchAll env start_date end_date symbols).2 = Except.ok data)
    (hne : data ≠ []) (hclean : cleanedDates data = []) :
    calculate_returns env symbols start_date end_date method lr =
      Out.text "No complete data available after cleaning missing values" ∧
    optimize_portfolio env symbols start_date end_date rf cm lr =
      Out.text "No complete data available after cleaning missing values" ∧
    full_portfolio_optimization env symbols start_date end_date rf ra cm lr =
      Out.text "No complete data available after cleaning missing values" ∧
    (∀ s1 s2 : String, ∀ a b : Series,
      (∀ d ∈ seriesDates a, d ∉ seriesDates b) →
      cleanedDates [(s1, a), (s2, b)] = []) := by
  have hde : data.isEmpty = false := by
    cases data with
    | nil => exact absurd rfl hne
    | cons _ _ => rfl
  refine ⟨?_, ?_, ?_, ?_⟩
  · simp [calculate_returns, hfetch, hde, hclean]
  · simp [optimize_portfolio, hfetch, hde, hclean]
  · simp [full_portfolio_optimization, hfetch, hde, hclean]
  · intro s1 s2 a b hdisj
    rw [cleanedDates, List.filter_eq_nil_iff]
    intro d _
    simp only [List.all_cons, List.all_nil, Bool.and_true, Bool.and_eq_true]
    rintro ⟨ha, hb⟩
    exact hdisj d (plookup_isSome.mp ha) (plookup_isSome.mp hb)

/-- A base environment variant whose two symbols have no common date. -/
def envDisjoint : Env :=
  { baseEnv with
    fetchHistory := fun s _ _ =>
      if s = "A" then PyResult.ok [(0, 10)] else PyResult.ok [(5, 20)] }

/-- Witness for C4: two symbols with disjoint date ranges; all three tools
report the no-complete-data condition. -/
theorem c4_witness :
    calculate_returns envDisjoint ["A", "B"] "2024-01-01" "2024-12-31" "mean_historical" false =
      Out.text "No complete data available after cleaning missing values" ∧
    optimize_portfolio envDisjoint ["A", "B"] "2024-01-01" "2024-12-31" 0 "sample_cov" false =
      Out.text "No complete data available after cleaning missing values" ∧
    full_portfolio_optimization envDisjoint ["A", "B"] "2024-01-01" "2024-12-31" 0 1 "sample_cov" false =
      Out.text "No complete data available after cleaning missing values" ∧
    (∀ s1 s2 : String, ∀ a b : Series,
      (∀ d ∈ seriesDates a, d ∉ seriesDates b) →
      cleanedDates [(s1, a), (s2, b)] = []) :=
  c4_empty_after_cleaning envDisjoint ["A", "B"] "2024-01-01" "2024-12-31"
    "mean_historical" "sample_cov" 0 1 false
    [("A", [(0, 10)]), ("B", [(5, 20)])] rfl (by simp) (by decide)

/-! ## Claim C5 -/

/-- C5: within one portfolio request the per-symbol fetches run
sequentially in list order; when the symbols before `s` all fetch
successfully and `s` fails (fetch exception or empty frame), exactly the
symbols up to and including `s` are fetched (none after it), and each of
the three portfolio tools returns `s`'s failure message immediately. -/
theorem c5_sequential_fetch_abort (env : Env)
    (start_date end_date method cm : String) (rf ra : ℚ) (lr : Bool)
    (pre : List String) (s : String) (post : List String)
    (hpre : ∀ t ∈ pre, fetchGood env start_date end_date t)
    (hbad : fetchBad env start_date end_date s) :
    (fetchAll env start_date end_date (pre ++ s :: post)).1 = pre ++ [s] ∧
    (fetchAll env start_date end_date (pre ++ s :: post)).2 =
      Except.error (fetchFailMsg env start_date end_date s) ∧
    calculate_returns env (pre ++ s :: post) start_date end_date method lr =
      Out.text (fetchFailMsg env start_date end_date s) ∧
    optimize_portfolio env (pre ++ s :: post) start_date end_date rf cm lr =
      Out.text (fetchFailMsg env start_date end_date s) ∧
    full_portfolio_optimization env (pre ++ s :: post) start_date end_date rf ra cm lr =
      Out.text (fetchFailMsg env start_date end_date s) := by
  have h := fetchAll_early_abort env start_date end_date pre s post hpre hbad
  refine ⟨by rw [h], by rw [h], ?_, ?_, ?_⟩
  · simp [calculate_returns, h]
  · simp [optimize_portfolio, h]
  · simp [full_portfolio_optimization, h]

/-- A base environment variant where only symbol `"A"` has data and
symbol `"B"`'s fetch raises. -/
def envFailB : Env :=
  { baseEnv with
    fetchHistory := fun s _ _ =>
      if s = "A" then PyResult.ok [(0, 10)] else PyResult.exc "down" }

/-- Witness for C5: with symbols `["A", "B", "C"]` where `"B"` raises,
only `"A"` and `"B"` are fetched and every portfolio tool returns `"B"`'s
fetch-error message. -/
theorem c5_witness :
    (fetchAll envFailB "s" "e" (["A"] ++ "B" :: ["C"])).1 = ["A"] ++ ["B"] ∧
    (fetchAll envFailB "s" "e" (["A"] ++ "B" :: ["C"])).2 =
      Except.error (fetchFailMsg envFailB "s" "e" "B") ∧
    calculate_returns envFailB (["A"] ++ "B" :: ["C"]) "s" "e" "mean_historical" false =
      Out.text (fetchFailMsg envFailB "s" "e" "B") ∧
    optimize_portfolio envFailB (["A"] ++ "B" :: ["C"]) "s" "e" 0 "sample_cov" false =
      Out.text (fetchFailMsg envFailB "s" "e" "B") ∧
    full_portfolio_optimization envFailB (["A"] ++ "B" :: ["C"]) "s" "e" 0 1 "sample_cov" false =
      Out.text (fetchFailMsg envFailB "s" "e" "B") :=
  c5_sequential_fetch_abort envFailB "s" "e" "mean_historical" "sample_cov" 0 1 false
    ["A"] "B" ["C"]
    (by intro t ht
        simp only [List.mem_singleton] at ht
        exact ⟨[(0, 10)], by rw [ht]; rfl, by simp⟩)
    (Or.inl ⟨"down", rfl⟩)

/-! ## Claim C9 -/

/-- C9: whenever `get_income_statement`, `get_balance_sheet` or
`get_cash_flow` succeeds (fetch returns a nonempty frame), the returned
records are the fetched records sorted ascending by `yearReport`. -/
theorem c9_fundamentals_sorted (env : Env) (symbol lang : String)
    (recs1 recs2 recs3 : List Rec)
    (h1 : env.income_statement (pyUpper symbol) lang = PyResult.ok recs1)
    (hne1 : recs1 ≠ [])
    (h2 : env.balance_sheet (pyUpper symbol) lang = PyResult.ok recs2)
    (hne2 : recs2 ≠ [])
    (h3 : env.cash_flow (pyUpper symbol) lang = PyResult.ok recs3)
    (hne3 : recs3 ≠ []) :
    get_income_statement env symbol lang = Out.json (sortByYear recs1) ∧
    (sortByYear recs1).Pairwise yLe ∧
    get_balance_sheet env symbol lang = Out.json (sortByYear recs2) ∧
    (sortByYear recs2).Pairwise yLe ∧
    get_cash_flow env symbol lang = Out.json (sortByYear recs3) ∧
    (sortByYear recs3).Pairwise yLe := by
  have e1 : recs1.isEmpty = false := by
    cases recs1 with
    | nil => exact absurd rfl hne1
    | cons _ _ => rfl
  have e2 : recs2.isEmpty = false := by
    cases recs2 with
    | nil => exact absurd rfl hne2
    | cons _ _ => rfl
  have e3 : recs3.isEmpty = false := by
    cases recs3 with
    | nil => exact absurd rfl hne3
    | cons _ _ => rfl
  refine ⟨?_, sortByYear_pairwise recs1, ?_, sortByYear_pairwise recs2,
    ?_, sortByYear_pairwise recs3⟩
  · simp [get_income_statement, h1, e1]
  · simp [get_balance_sheet, h2, e2]
  · simp [get_cash_flow, h3, e3]

/-- Witness for C9: the base environment returns years `[2021, 2019]`;
all three tools emit them sorted. -/
theorem c9_witness :
    get_income_statement baseEnv "vci" "en" =
      Out.json (sortByYear [⟨2021, []⟩, ⟨2019, []⟩]) ∧
    (sortByYear [⟨2021, []⟩, ⟨2019, []⟩]).Pairwise yLe ∧
    get_balance_sheet baseEnv "vci" "en" =
      Out.json (sortByYear [⟨2021, []⟩, ⟨2019, []⟩]) ∧
    (sortByYear [⟨2021, []⟩, ⟨2019, []⟩]).Pairwise yLe ∧
    get_cash_flow baseEnv "vci" "en" =
      Out.json (sortByYear [⟨2021, []⟩, ⟨2019, []⟩]) ∧
    (sortByYear [⟨2021, []⟩, ⟨2019, []⟩]).Pairwise yLe :=
  c9_fundamentals_sorted baseEnv "vci" "en"
    [⟨2021, []⟩, ⟨2019, []⟩] [⟨2021, []⟩, ⟨2019, []⟩] [⟨2021, []⟩, ⟨2019, []⟩]
    rfl (by decide) rfl (by decide) rfl (by decide)

/-! ## Claim C3 -/

/-- A base environment variant whose stock/company-handle construction
raises. -/
def envCtorFails : Env :=
  { baseEnv with companyCtor := fun _ => PyResult.exc "boom" }

/-- Counterexample to C3 as stated: the stock/company handle is
constructed before the `info_type` dispatch, so a symbol whose handle
construction raises makes `get_company_info` with an invalid `info_type`
return the error string, not the invalid-type message. -/
theorem c3_counterexample :
    get_company_info envCtorFails "AAA" "bogus" "en" =
      Out.text "Error fetching bogus for AAA: boom" ∧
    Out.text (α := List Rec) "Error fetching bogus for AAA: boom" ≠
      Out.text (invalidInfoTypeMsg "bogus") := by
  constructor
  · rfl
  · decide

/-- C3 (amended): for every symbol and lang, provided the stock/company
handle construction for the symbol does not raise, `get_company_info`
with an `info_type` outside the nine valid values returns exactly the
invalid-type message listing the valid options. -/
theorem c3_invalid_info_type_amended (env : Env) (symbol info_type lang : String)
    (hit : info_type ∉ validInfoTypes)
    (hctor : env.companyCtor (pyUpper symbol) = PyResult.ok ()) :
    get_company_info env symbol info_type lang =
      Out.text (invalidInfoTypeMsg info_type) := by
  simp only [validInfoTypes, List.mem_cons, List.not_mem_nil, or_false,
    not_or] at hit
  obtain ⟨n1, n2, n3, n4, n5, n6, n7, n8, n9⟩ := hit
  have hcf : companyFetch env (pyUpper symbol) info_type = none := by
    simp [companyFetch, n1, n2, n3, n4, n5, n6, n7, n8, n9]
  simp [get_company_info, hctor, hcf]

/-- Witness for C3 (amended): in the base environment the invalid
`info_type` value `"bogus"` yields exactly the invalid-type message. -/
theorem c3_witness :
    get_company_info baseEnv "AAA" "bogus" "en" =
      Out.text (invalidInfoTypeMsg "bogus") :=
  c3_invalid_info_type_amended baseEnv "AAA" "bogus" "en" (by decide) rfl

/-! ## Claim C10 -/

/-- A base environment variant whose income-statement fetch returns an
empty frame for every symbol. -/
def envNoIncome : Env :=
  { baseEnv with income_statement := fun _ _ => PyResult.ok [] }

/-- Counterexample to C10 as stated: on the no-data path the message
echoes the caller's original casing, so `get_income_statement` with
`"vci"` and with `"VCI"` return different strings. -/
theorem c10_counterexample :
    get_income_statement envNoIncome "vci" "en" =
      Out.text "No income statement data found for vci" ∧
    get_income_statement envNoIncome "VCI" "en" =
      Out.text "No income statement data found for VCI" ∧
    get_income_statement envNoIncome "vci" "en" ≠
      get_income_statement envNoIncome "VCI" "en" := by
  refine ⟨rfl, rfl, ?_⟩
  decide

/-- C10 (amended): in the ten tools that uppercase their symbol before
delegating, the external request depends on the symbol only through its
uppercased form, so on every success path (fetch succeeded with a
nonempty frame) the call with `symbol` returns exactly the result of the
call with the uppercased symbol.  (On the no-data and error paths the
messages embed the original casing and may differ.) -/
theorem c10_symbol_case_amended (env : Env) (symbol lang : String) :
    (∀ recs, env.income_statement (pyUpper symbol) lang = PyResult.ok recs →
      recs ≠ [] → get_income_statement env symbol lang =
        get_income_statement env (pyUpper symbol) lang) ∧
    (∀ recs, env.balance_sheet (pyUpper symbol) lang = PyResult.ok recs →
      recs ≠ [] → get_balance_sheet env symbol lang =
        get_balance_sheet env (pyUpper symbol) lang) ∧
    (∀ recs, env.cash_flow (pyUpper symbol) lang = PyResult.ok recs →
      recs ≠ [] → get_cash_flow env symbol lang =
        get_cash_flow env (pyUpper symbol) lang) ∧
    (∀ recs flat, env.ratioRaw (pyUpper symbol) lang = PyResult.ok recs →
      recs ≠ [] → env.flattenIdx recs = PyResult.ok flat →
      get_financial_ratios env symbol lang =
        get_financial_ratios env (pyUpper symbol) lang) ∧
    (∀ recs, env.dividends (pyUpper symbol) = PyResult.ok recs →
      recs ≠ [] → get_dividend_history env symbol =
        get_dividend_history env (pyUpper symbol)) ∧
    (∀ info_type recs, env.companyCtor (pyUpper symbol) = PyResult.ok () →
      companyFetch env (pyUpper symbol) info_type = some (PyResult.ok recs) →
      recs ≠ [] → get_company_info env symbol info_type lang =
        get_company_info env (pyUpper symbol) info_type lang) ∧
    (∀ recs, env.nav_report (pyUpper symbol) = PyResult.ok recs →
      recs ≠ [] → get_fund_nav_report env symbol =
        get_fund_nav_report env (pyUpper symbol)) ∧
    (∀ recs, env.top_holding (pyUpper symbol) = PyResult.ok recs →
      recs ≠ [] → get_fund_top_holdings env symbol =
        get_fund_top_holdings env (pyUpper symbol)) ∧
    (∀ recs, env.industry_holding (pyUpper symbol) = PyResult.ok recs →
      recs ≠ [] → get_fund_industry_allocation env symbol =
        get_fund_industry_allocation env (pyUpper symbol)) ∧
    (∀ recs, env.asset_holding (pyUpper symbol) = PyResult.ok recs →
      recs ≠ [] → get_fund_asset_allocation env symbol =
        get_fund_asset_allocation env (pyUpper symbol)) := by
  have hup := pyUpper_pyUpper symbol
  have hemp : ∀ recs : List Rec, recs ≠ [] → recs.isEmpty = false := by
    intro recs h
    cases recs with
    | nil => exact absurd rfl h
    | cons _ _ => rfl
  refine ⟨?_, ?_, ?_, ?_, ?_, ?_, ?_, ?_, ?_, ?_⟩
  · intro recs h hne
    simp [get_income_statement, hup, h, hemp recs hne]
  · intro recs h hne
    simp [get_balance_sheet, hup, h, hemp recs hne]
  · intro recs h hne
    simp [get_cash_flow, hup, h, hemp recs hne]
  · intro recs flat h hne hf
    simp [get_financial_ratios, hup, h, hemp recs hne, hf]
  · intro recs h hne
    simp [get_dividend_history, hup, h, hemp recs hne]
  · intro info_type recs hctor hcf hne
    simp [get_company_info, hup, hctor, hcf, hemp recs hne]
  · intro recs h hne
    simp [get_fund_nav_report, hup, h, hemp recs hne]
  · intro recs h hne
    simp [get_fund_top_holdings, hup, h, hemp recs hne]
  · intro recs h hne
    simp [get_fund_industry_allocation, hup, h, hemp recs hne]
  · intro recs h hne
    simp [get_fund_asset_allocation, hup, h, hemp recs hne]

/-- Witness for C10 (amended): in the base environment every success path
of the ten tools agrees between `"vci"` and `"VCI"`. -/
theorem c10_witness :
    get_income_statement baseEnv "vci" "en" =
      get_income_statement baseEnv (pyUpper "vci") "en" ∧
    get_balance_sheet baseEnv "vci" "en" =
      get_balance_sheet baseEnv (pyUpper "vci") "en" ∧
    get_cash_flow baseEnv "vci" "en" =
      get_cash_flow baseEnv (pyUpper "vci") "en" ∧
    get_financial_ratios baseEnv "vci" "en" =
      get_financial_ratios baseEnv (pyUpper "vci") "en" ∧
    get_dividend_history baseEnv "vci" =
      get_dividend_history baseEnv (pyUpper "vci") ∧
    get_company_info baseEnv "vci" "overview" "en" =
      get_company_info baseEnv (pyUpper "vci") "overview" "en" ∧
    get_fund_nav_report baseEnv "vci" =
      get_fund_nav_report baseEnv (pyUpper "vci") ∧
    get_fund_top_holdings baseEnv "vci" =
      get_fund_top_holdings baseEnv (pyUpper "vci") ∧
    get_fund_industry_allocation baseEnv "vci" =
      get_fund_industry_allocation baseEnv (pyUpper "vci") ∧
    get_fund_asset_allocation baseEnv "vci" =
      get_fund_asset_allocation baseEnv (pyUpper "vci") := by
  obtain ⟨w1, w2, w3, w4, w5, w6, w7, w8, w9, w10⟩ :=
    c10_symbol_case_amended baseEnv "vci" "en"
  exact ⟨w1 _ rfl (by decide), w2 _ rfl (by decide), w3 _ rfl (by decide),
    w4 _ _ rfl (by decide) rfl, w5 _ rfl (by decide),
    w6 "overview" _ rfl rfl (by decide), w7 _ rfl (by decide),
    w8 _ rfl (by decide), w9 _ rfl (by decide), w10 _ rfl (by decide)⟩

/-! ## Claim C1 -/

/-- Counterexample to C1 as stated: both optimization tools echo the
requested `covariance_method` string into their output, so the output for
the unrecognized method `"foo"` is not identical to the output for
`"sample_cov"` (they differ exactly in that echoed field). -/
theorem c1_counterexample :
    optimize_portfolio baseEnv ["A"] "s" "e" 0 "foo" false ≠
      optimize_portfolio baseEnv ["A"] "s" "e" 0 "sample_cov" false ∧
    full_portfolio_optimization baseEnv ["A"] "s" "e" 0 1 "foo" false ≠
      full_portfolio_optimization baseEnv ["A"] "s" "e" 0 1 "sample_cov" false := by
  constructor
  · intro h
    have hc := congrArg
      (fun r => match r with
        | Out.text _ => ""
        | Out.json o => o.covariance_method) h
    exact absurd (show ("foo" : String) = "sample_cov" from hc) (by decide)
  · intro h
    have hc := congrArg
      (fun r => match r with
        | Out.text _ => ""
        | Out.json o => o.covariance_method) h
    exact absurd (show ("foo" : String) = "sample_cov" from hc) (by decide)

/-- C1 (amended): for every environment and parameters, a
`covariance_method` outside the four recognized values makes both
optimization tools behave exactly as with `"sample_cov"` (same covariance
estimator, same weights and metrics); the outputs agree after forgetting
the echoed `covariance_method` request parameter, which is the only
difference. -/
theorem c1_unknown_covariance_fallback_amended (env : Env)
    (symbols : List String) (start_date end_date : String) (rf ra : ℚ)
    (lr : Bool) {m : String} (hm : m ∉ validCovMethods) :
    stripCovOpt (optimize_portfolio env symbols start_date end_date rf m lr) =
      stripCovOpt (optimize_portfolio env symbols start_date end_date rf "sample_cov" lr) ∧
    stripCovFull (full_portfolio_optimization env symbols start_date end_date rf ra m lr) =
      stripCovFull (full_portfolio_optimization env symbols start_date end_date rf ra "sample_cov" lr) := by
  have hcov : ∀ tbl, covSelect env m tbl = covSelect env "sample_cov" tbl := by
    intro tbl
    rw [covSelect_unknown env _ hm, covSelect_sample]
  constructor
  · cases hf : (fetchAll env start_date end_date symbols).2 with
    | error s => simp [optimize_portfolio, hf]
    | ok data =>
      by_cases hde : data.isEmpty
      · simp [optimize_portfolio, hf, hde]
      · by_cases hcd : (cleanedDates data).isEmpty
        · simp [optimize_portfolio, hf, hde, hcd]
        · cases hmu : env.meanHist (cleanTable data) lr with
          | exc mm => simp [optimize_portfolio, hf, hde, hcd, hmu]
          | ok mu =>
            cases hS : covSelect env "sample_cov" (cleanTable data) with
            | exc mm =>
              simp [optimize_portfolio, hf, hde, hcd, hmu, hcov, hS]
            | ok S =>
              cases hms : env.maxSharpe mu S rf with
              | exc mm =>
                simp [optimize_portfolio, hf, hde, hcd, hmu, hcov, hS, hms]
              | optError mm =>
                simp [optimize_portfolio, hf, hde, hcd, hmu, hcov, hS, hms]
              | ok w p =>
                simp [optimize_portfolio, hf, hde, hcd, hmu, hcov, hS, hms,
                  stripCovOpt]
  · cases hf : (fetchAll env start_date end_date symbols).2 with
    | error s => simp [full_portfolio_optimization, hf]
    | ok data =>
      by_cases hde : data.isEmpty
      · simp [full_portfolio_optimization, hf, hde]
      · by_cases hcd : (cleanedDates data).isEmpty
        · simp [full_portfolio_optimization, hf, hde, hcd]
        · cases hmu : env.meanHist (cleanTable data) lr with
          | exc mm => simp [full_portfolio_optimization, hf, hde, hcd, hmu]
          | ok mu =>
            cases hS : covSelect env "sample_cov" (cleanTable data) with
            | exc mm =>
              simp [full_portfolio_optimization, hf, hde, hcd, hmu, hcov, hS]
            | ok S =>
              cases hro : runObjectives env mu S rf ra with
              | error s =>
                simp [full_portfolio_optimization, hf, hde, hcd, hmu, hcov,
                  hS, hro]
              | ok entries =>
                simp [full_portfolio_optimization, hf, hde, hcd, hmu, hcov,
                  hS, hro, stripCovFull]

/-- Witness for C1 (amended): concrete run with the unrecognized method
`"foo"` against the base environment. -/
theorem c1_witness :
    stripCovOpt (optimize_portfolio baseEnv ["A"] "s" "e" 0 "foo" false) =
      stripCovOpt (optimize_portfolio baseEnv ["A"] "s" "e" 0 "sample_cov" false) ∧
    stripCovFull (full_portfolio_optimization baseEnv ["A"] "s" "e" 0 1 "foo" false) =
      stripCovFull (full_portfolio_optimization baseEnv ["A"] "s" "e" 0 1 "sample_cov" false) :=
  c1_unknown_covariance_fallback_amended baseEnv ["A"] "s" "e" 0 1 false
    (by decide)

/-! ## Claim C2 -/

theorem runObj_not_exc (name fp : String) (outcome : SolveOutcome)
    (h : ∀ m, outcome ≠ SolveOutcome.exc m) :
    ∃ e, runObj name fp outcome = Except.ok e ∧
      (e.isSuccess = true ↔ ∃ w p, outcome = SolveOutcome.ok w p) := by
  cases outcome with
  | ok w p =>
    exact ⟨_, rfl, ⟨fun _ => ⟨w, p, rfl⟩, fun _ => rfl⟩⟩
  | optError m =>
    refine ⟨_, rfl, ⟨fun hfalse => absurd hfalse (by simp [ObjEntry.isSuccess]), ?_⟩⟩
    rintro ⟨w, p, hwp⟩
    exact SolveOutcome.noConfusion hwp
  | exc m => exact absurd rfl (h m)

/-- A base environment variant whose `max_sharpe` solve raises a generic
(non-`OptimizationError`) exception. -/
def envSharpeExc : Env :=
  { baseEnv with maxSharpe := fun _ _ _ => SolveOutcome.exc "boom" }

/-- Counterexample to C2 as stated: only `OptimizationError` is isolated
per objective; a `max_sharpe` solve raising any other exception aborts the
whole request — the other two objectives are not attempted and no result
or summary is returned, only the outer error string. -/
theorem c2_counterexample :
    full_portfolio_optimization envSharpeExc ["A"] "s" "e" 0 1 "sample_cov" false =
      Out.text "Error in full portfolio optimization: boom" := rfl

/-- C2 (amended): on inputs reaching the optimization stage, provided no
objective raises a generic (non-`OptimizationError`) exception, the three
objectives are attempted independently: all three entries appear in the
output in order, each marked successful exactly when its solve succeeded
(an `OptimizationError` yields a failure entry without aborting the rest),
and the summary lists exactly the successful objectives with their count. -/
theorem c2_objective_isolation_amended (env : Env) (symbols : List String)
    (start_date end_date : String) (rf ra : ℚ) (cm : String) (lr : Bool)
    (data : List (String × Series)) (mu : RetVec) (S : CovMatrix)
    (hfetch : (fetchAll env start_date end_date symbols).2 = Except.ok data)
    (hne : data ≠ []) (hclean : cleanedDates data ≠ [])
    (hmu : env.meanHist (cleanTable data) lr = PyResult.ok mu)
    (hS : covSelect env cm (cleanTable data) = PyResult.ok S)
    (h1 : ∀ m, env.maxSharpe mu S rf ≠ SolveOutcome.exc m)
    (h2 : ∀ m, env.minVol mu S ≠ SolveOutcome.exc m)
    (h3 : ∀ m, env.maxUtil mu S ra ≠ SolveOutcome.exc m) :
    ∃ e1 e2 e3 : ObjEntry,
      full_portfolio_optimization env symbols start_date end_date rf ra cm lr =
        Out.json
          { symbols := symbols
            start_date := start_date
            end_date := end_date
            risk_free_rate := rf
            risk_aversion := ra
            covariance_method := cm
            log_returns := lr
            optimized_portfolios :=
              [("max_sharpe", e1), ("min_volatility", e2), ("max_utility", e3)]
            total_portfolios :=
              (successList [("max_sharpe", e1), ("min_volatility", e2),
                ("max_utility", e3)]).length
            successful_optimizations :=
              successList [("max_sharpe", e1), ("min_volatility", e2),
                ("max_utility", e3)] } ∧
      (e1.isSuccess = true ↔ ∃ w p, env.maxSharpe mu S rf = SolveOutcome.ok w p) ∧
      (e2.isSuccess = true ↔ ∃ w p, env.minVol mu S = SolveOutcome.ok w p) ∧
      (e3.isSuccess = true ↔ ∃ w p, env.maxUtil mu S ra = SolveOutcome.ok w p) := by
  obtain ⟨e1, he1, hs1⟩ :=
    runObj_not_exc "max_sharpe" "Max Sharpe optimization failed: " _ h1
  obtain ⟨e2, he2, hs2⟩ :=
    runObj_not_exc "min_volatility" "Min volatility optimization failed: " _ h2
  obtain ⟨e3, he3, hs3⟩ :=
    runObj_not_exc "max_utility" "Max utility optimization failed: " _ h3
  have hde : data.isEmpty = false := by
    cases data with
    | nil => exact absurd rfl hne
    | cons _ _ => rfl
  have hcd : (cleanedDates data).isEmpty = false := by
    cases hc : cleanedDates data with
    | nil => exact absurd hc hclean
    | cons _ _ => rfl
  have hro : runObjectives env mu S rf ra =
      Except.ok [("max_sharpe", e1), ("min_volatility", e2), ("max_utility", e3)] := by
    unfold runObjectives
    rw [he1, he2, he3]
  refine ⟨e1, e2, e3, ?_, hs1, hs2, hs3⟩
  simp [full_portfolio_optimization, hfetch, hde, hcd, hmu, hS, hro]

/-- A base environment variant whose `max_sharpe` solve fails with an
`OptimizationError` while the other two objectives succeed. -/
def envSharpeFails : Env :=
  { baseEnv with maxSharpe := fun _ _ _ => SolveOutcome.optError "infeasible" }

/-- Witness for C2 (amended): with `max_sharpe` failing by
`OptimizationError` and the other objectives succeeding, all three entries
are present and the summary lists exactly the two successes. -/
theorem c2_witness :
    ∃ e1 e2 e3 : ObjEntry,
      full_portfolio_optimization envSharpeFails ["A"] "s" "e" 0 1 "sample_cov" false =
        Out.json
          { symbols := ["A"]
            start_date := "s"
            end_date := "e"
            risk_free_rate := 0
            risk_aversion := 1
            covariance_method := "sample_cov"
            log_returns := false
            optimized_portfolios :=
              [("max_sharpe", e1), ("min_volatility", e2), ("max_utility", e3)]
            total_portfolios :=
              (successList [("max_sharpe", e1), ("min_volatility", e2),
                ("max_utility", e3)]).length
            successful_optimizations :=
              successList [("max_sharpe", e1), ("min_volatility", e2),
                ("max_utility", e3)] } ∧
      (e1.isSuccess = true ↔
        ∃ w p, envSharpeFails.maxSharpe [("A", 1/4)] [[1/9]] 0 = SolveOutcome.ok w p) ∧
      (e2.isSuccess = true ↔
        ∃ w p, envSharpeFails.minVol [("A", 1/4)] [[1/9]] = SolveOutcome.ok w p) ∧
      (e3.isSuccess = true ↔
        ∃ w p, envSharpeFails.maxUtil [("A", 1/4)] [[1/9]] 1 = SolveOutcome.ok w p) :=
  c2_objective_isolation_amended envSharpeFails ["A"] "s" "e" 0 1 "sample_cov" false
    [("A", [(0, 10), (1, 11)])] [("A", 1/4)] [[1/9]]
    rfl (by simp) (by decide) rfl rfl
    (fun m h => SolveOutcome.noConfusion h)
    (fun m h => SolveOutcome.noConfusion h)
    (fun m h => SolveOutcome.noConfusion h)

/-! ## Claim C6 -/

/-- Counterexample to C6 as stated: an `OptimizationError` raised during
the optimization stage of `optimize_portfolio` is caught but reported as
`"Optimization failed: <message>"`, which is not of the form
`"Error <doing something>: <message>"`. -/
theorem c6_counterexample :
    optimize_portfolio envSharpeFails ["A"] "s" "e" 0 "sample_cov" false =
      Out.text "Optimization failed: infeasible" ∧
    ¬ errorForm "Optimization failed: infeasible" := by
  refine ⟨rfl, ?_⟩
  rintro ⟨op, msg, h⟩
  have hd := congrArg (fun t => t.data.head?) h
  simp [String.data_append] at hd

/-- A base environment variant whose raw quote fetch raises. -/
def envQuoteExc : Env :=
  { baseEnv with qhistory := fun _ _ _ _ => PyResult.exc "boom" }

/-- C6 (amended): every exception is caught and converted to a
descriptive string — a fetch exception in `get_stock_history` and a
generic exception during estimation or optimization in
`optimize_portfolio` yield strings of the form
`"Error <doing something>: <message>"`; but an `OptimizationError` in
`optimize_portfolio` yields `"Optimization failed: <message>"`, which is
not of that form, and an `OptimizationError` in an objective of
`full_portfolio_optimization` is recorded as a failure entry inside the
JSON result rather than returned as an error string. -/
theorem c6_exception_handling_amended (env : Env)
    (m symbol start_date end_date interval cm : String)
    (symbols : List String) (rf : ℚ) (lr : Bool)
    (data : List (String × Series)) (mu : RetVec) (S : CovMatrix) :
    (env.qhistory symbol start_date end_date interval = PyResult.exc m →
      get_stock_history env symbol start_date end_date interval =
        Out.text ("Error fetching stock data: " ++ m)) ∧
    ((fetchAll env start_date end_date symbols).2 = Except.ok data →
      data.isEmpty = false → (cleanedDates data).isEmpty = false →
      env.meanHist (cleanTable data) lr = PyResult.exc m →
      optimize_portfolio env symbols start_date end_date rf cm lr =
        Out.text ("Error optimizing portfolio: " ++ m)) ∧
    ((fetchAll env start_date end_date symbols).2 = Except.ok data →
      data.isEmpty = false → (cleanedDates data).isEmpty = false →
      env.meanHist (cleanTable data) lr = PyResult.ok mu →
      covSelect env cm (cleanTable data) = PyResult.ok S →
      env.maxSharpe mu S rf = SolveOutcome.optError m →
      optimize_portfolio env symbols start_date end_date rf cm lr =
        Out.text ("Optimization failed: " ++ m)) ∧
    ((fetchAll env start_date end_date symbols).2 = Except.ok data →
      data.isEmpty = false → (cleanedDates data).isEmpty = false →
      env.meanHist (cleanTable data) lr = PyResult.ok mu →
      covSelect env cm (cleanTable data) = PyResult.ok S →
      env.maxSharpe mu S rf = SolveOutcome.exc m →
      optimize_portfolio env symbols start_date end_date rf cm lr =
        Out.text ("Error optimizing portfolio: " ++ m)) ∧
    errorForm ("Error fetching stock data: " ++ m) ∧
    errorForm ("Error optimizing portfolio: " ++ m) ∧
    ¬ errorForm ("Optimization failed: " ++ m) ∧
    runObj "max_sharpe" "Max Sharpe optimization failed: "
        (SolveOutcome.optError m) =
      Except.ok (ObjEntry.failure ("Max Sharpe optimization failed: " ++ m)) := by
  refine ⟨?_, ?_, ?_, ?_, ?_, ?_, ?_, rfl⟩
  · intro h
    simp [get_stock_history, h]
  · intro hfetch hde hcd hmu
    simp [optimize_portfolio, hfetch, hde, hcd, hmu]
  · intro hfetch hde hcd hmu hS hms
    simp [optimize_portfolio, hfetch, hde, hcd, hmu, hS, hms]
  · intro hfetch hde hcd hmu hS hms
    simp [optimize_portfolio, hfetch, hde, hcd, hmu, hS, hms]
  · exact ⟨"fetching stock data", m, rfl⟩
  · exact ⟨"optimizing portfolio", m, rfl⟩
  · rintro ⟨op, msg, h⟩
    have hd := congrArg (fun t => t.data.head?) h
    simp [String.data_append] at hd

/-- Witness for C6 (amended): concrete fetch exception and concrete
`OptimizationError`, with the form facts at those messages. -/
theorem c6_witness :
    get_stock_history envQuoteExc "VCI" "s" "e" "1D" =
      Out.text ("Error fetching stock data: " ++ "boom") ∧
    optimize_portfolio envSharpeFails ["A"] "s" "e" 0 "sample_cov" false =
      Out.text ("Optimization failed: " ++ "infeasible") ∧
    errorForm ("Error fetching stock data: " ++ "boom") ∧
    ¬ errorForm ("Optimization failed: " ++ "infeasible") :=
  ⟨(c6_exception_handling_amended envQuoteExc "boom" "VCI" "s" "e" "1D"
      "sample_cov" [] 0 false [] [] []).1 rfl,
   (c6_exception_handling_amended envSharpeFails "infeasible" "VCI" "s" "e"
      "1D" "sample_cov" ["A"] 0 false [("A", [(0, 10), (1, 11)])]
      [("A", 1/4)] [[1/9]]).2.2.1 rfl rfl (by decide) rfl rfl rfl,
   (c6_exception_handling_amended envQuoteExc "boom" "VCI" "s" "e" "1D"
      "sample_cov" [] 0 false [] [] []).2.2.2.2.1,
   (c6_exception_handling_amended envSharpeFails "infeasible" "VCI" "s" "e"
      "1D" "sample_cov" ["A"] 0 false [("A", [(0, 10), (1, 11)])]
      [("A", 1/4)] [[1/9]]).2.2.2.2.2.2.1⟩

/-! ## Claim C7 -/

theorem runObj_success {name fp : String} {outcome : SolveOutcome}
    {e : ObjEntry} (h : runObj name fp outcome = Except.ok e)
    {s : ObjSuccess} (hs : e = ObjEntry.success s) :
    ∃ w p, outcome = SolveOutcome.ok w p ∧ s.weights = roundWeights w := by
  cases outcome with
  | ok w p =>
    refine ⟨w, p, rfl, ?_⟩
    simp only [runObj, Except.ok.injEq] at h
    rw [hs] at h
    injection h with h'
    rw [← h']
  | optError m =>
    simp only [runObj, Except.ok.injEq] at h
    rw [hs] at h
    exact absurd h (by simp)
  | exc m => simp [runObj] at h

theorem runObjectives_ok {env : Env} {mu : RetVec} {S : CovMatrix}
    {rf ra : ℚ} {entries : List (String × ObjEntry)}
    (h : runObjectives env mu S rf ra = Except.ok entries) :
    ∃ e1 e2 e3,
      entries = [("max_sharpe", e1), ("min_volatility", e2), ("max_utility", e3)] ∧
      runObj "max_sharpe" "Max Sharpe optimization failed: "
        (env.maxSharpe mu S rf) = Except.ok e1 ∧
      runObj "min_volatility" "Min volatility optimization failed: "
        (env.minVol mu S) = Except.ok e2 ∧
      runObj "max_utility" "Max utility optimization failed: "
        (env.maxUtil mu S ra) = Except.ok e3 := by
  unfold runObjectives at h
  cases h1 : runObj "max_sharpe" "Max Sharpe optimization failed: "
      (env.maxSharpe mu S rf) with
  | error e => rw [h1] at h; simp at h
  | ok e1 =>
    rw [h1] at h
    cases h2 : runObj "min_volatility" "Min volatility optimization failed: "
        (env.minVol mu S) with
    | error e => rw [h2] at h; simp at h
    | ok e2 =>
      rw [h2] at h
      cases h3 : runObj "max_utility" "Max utility optimization failed: "
          (env.maxUtil mu S ra) with
      | error e => rw [h3] at h; simp at h
      | ok e3 =>
        rw [h3] at h
        simp only [Except.ok.injEq] at h
        exact ⟨e1, e2, e3, h.symm, rfl, rfl, rfl⟩

theorem rounded_weights_valid {w : List (String × ℚ)}
    (hnn : ∀ x ∈ w, 0 ≤ x.2) (hsum : wsum w = 1) :
    (∀ x ∈ roundWeights w, 0 ≤ x.2) ∧
    |wsum (roundWeights w) - 1| ≤ ((roundWeights w).length : ℚ) * (1 / 10000) := by
  refine ⟨roundWeights_nonneg hnn, ?_⟩
  have hb := abs_wsum_roundWeights_sub w
  rw [hsum] at hb
  rw [roundWeights_length]
  calc |wsum (roundWeights w) - 1| ≤ (w.length : ℚ) * (1 / 20000) := hb
    _ ≤ (w.length : ℚ) * (1 / 10000) := by
        apply mul_le_mul_of_nonneg_left (by norm_num) (by positivity)

/-- C7: assuming the optimization library's contract for the three solves
(cleaned weights are non-negative and sum to one), every weight vector
returned by `optimize_portfolio`, and every successful objective's weight
vector in `full_portfolio_optimization`, has no negative entry and sums
to 1 within ±0.0001 times the number of assets. -/
theorem c7_weight_vector_valid (env : Env)
    (hcs : ∀ mu S rf w p, env.maxSharpe mu S rf = SolveOutcome.ok w p →
      (∀ x ∈ w, 0 ≤ x.2) ∧ wsum w = 1)
    (hcv : ∀ mu S w p, env.minVol mu S = SolveOutcome.ok w p →
      (∀ x ∈ w, 0 ≤ x.2) ∧ wsum w = 1)
    (hcu : ∀ mu S ra w p, env.maxUtil mu S ra = SolveOutcome.ok w p →
      (∀ x ∈ w, 0 ≤ x.2) ∧ wsum w = 1) :
    (∀ symbols start_date end_date rf cm lr out,
      optimize_portfolio env symbols start_date end_date rf cm lr = Out.json out →
      (∀ x ∈ out.optimal_weights, 0 ≤ x.2) ∧
      |wsum out.optimal_weights - 1| ≤
        (out.optimal_weights.length : ℚ) * (1 / 10000)) ∧
    (∀ symbols start_date end_date rf ra cm lr out name entry s,
      full_portfolio_optimization env symbols start_date end_date rf ra cm lr =
        Out.json out →
      (name, entry) ∈ out.optimized_portfolios →
      entry = ObjEntry.success s →
      (∀ x ∈ s.weights, 0 ≤ x.2) ∧
      |wsum s.weights - 1| ≤ (s.weights.length : ℚ) * (1 / 10000)) := by
  constructor
  · intro symbols start_date end_date rf cm lr out h
    cases hf : (fetchAll env start_date end_date symbols).2 with
    | error s => simp [optimize_portfolio, hf] at h
    | ok data =>
      by_cases hde : data.isEmpty
      · simp [optimize_portfolio, hf, hde] at h
      · by_cases hcd : (cleanedDates data).isEmpty
        · simp [optimize_portfolio, hf, hde, hcd] at h
        · cases hmu : env.meanHist (cleanTable data) lr with
          | exc mm => simp [optimize_portfolio, hf, hde, hcd, hmu] at h
          | ok mu =>
            cases hS : covSelect env cm (cleanTable data) with
            | exc mm => simp [optimize_portfolio, hf, hde, hcd, hmu, hS] at h
            | ok S =>
              cases hms : env.maxSharpe mu S rf with
              | exc mm =>
                simp [optimize_portfolio, hf, hde, hcd, hmu, hS, hms] at h
              | optError mm =>
                simp [optimize_portfolio, hf, hde, hcd, hmu, hS, hms] at h
              | ok w p =>
                simp only [optimize_portfolio, hf, hde, hcd, hmu, hS, hms,
                  Bool.false_eq_true, if_false, Out.json.injEq] at h
                obtain ⟨hnn, hsum⟩ := hcs mu S rf w p hms
                rw [← h]
                exact rounded_weights_valid hnn hsum
  · intro symbols start_date end_date rf ra cm lr out name entry s h hmem hs
    cases hf : (fetchAll env start_date end_date symbols).2 with
    | error s' => simp [full_portfolio_optimization, hf] at h
    | ok data =>
      by_cases hde : data.isEmpty
      · simp [full_portfolio_optimization, hf, hde] at h
      · by_cases hcd : (cleanedDates data).isEmpty
        · simp [full_portfolio_optimization, hf, hde, hcd] at h
        · cases hmu : env.meanHist (cleanTable data) lr with
          | exc mm =>
            simp [full_portfolio_optimization, hf, hde, hcd, hmu] at h
          | ok mu =>
            cases hS : covSelect env cm (cleanTable data) with
            | exc mm =>
              simp [full_portfolio_optimization, hf, hde, hcd, hmu, hS] at h
            | ok S =>
              cases hro : runObjectives env mu S rf ra with
              | error s' =>
                simp [full_portfolio_optimization, hf, hde, hcd, hmu, hS,
                  hro] at h
              | ok entries =>
                simp only [full_portfolio_optimization, hf, hde, hcd, hmu,
                  hS, hro, Bool.false_eq_true, if_false,
                  Out.json.injEq] at h
                obtain ⟨e1, e2, e3, hent, he1, he2, he3⟩ :=
                  runObjectives_ok hro
                rw [← h] at hmem
                simp only [hent, List.mem_cons, List.not_mem_nil,
                  or_false, Prod.mk.injEq] at hmem
                rcases hmem with ⟨-, rfl⟩ | ⟨-, rfl⟩ | ⟨-, rfl⟩
                · obtain ⟨w, p, hwp, hsw⟩ := runObj_success he1 hs
                  obtain ⟨hnn, hsum⟩ := hcs mu S rf w p hwp
                  rw [hsw]
                  exact rounded_weights_valid hnn hsum
                · obtain ⟨w, p, hwp, hsw⟩ := runObj_success he2 hs
                  obtain ⟨hnn, hsum⟩ := hcv mu S w p hwp
                  rw [hsw]
                  exact rounded_weights_valid hnn hsum
                · obtain ⟨w, p, hwp, hsw⟩ := runObj_success he3 hs
                  obtain ⟨hnn, hsum⟩ := hcu mu S ra w p hwp
                  rw [hsw]
                  exact rounded_weights_valid hnn hsum

/-- Witness for C7: the base environment's solvers meet the contract
(single weight 1, non-negative, summing to 1), so every produced weight
vector satisfies the bounds. -/
theorem c7_witness :
    (∀ symbols start_date end_date rf cm lr out,
      optimize_portfolio baseEnv symbols start_date end_date rf cm lr =
        Out.json out →
      (∀ x ∈ out.optimal_weights, 0 ≤ x.2) ∧
      |wsum out.optimal_weights - 1| ≤
        (out.optimal_weights.length : ℚ) * (1 / 10000)) ∧
    (∀ symbols start_date end_date rf ra cm lr out name entry s,
      full_portfolio_optimization baseEnv symbols start_date end_date rf ra cm lr =
        Out.json out →
      (name, entry) ∈ out.optimized_portfolios →
      entry = ObjEntry.success s →
      (∀ x ∈ s.weights, 0 ≤ x.2) ∧
      |wsum s.weights - 1| ≤ (s.weights.length : ℚ) * (1 / 10000)) :=
  c7_weight_vector_valid baseEnv
    (by intro mu S rf w p h
        injection h with hw hp
        subst hw
        refine ⟨?_, by simp [wsum]⟩
        intro x hx
        simp only [List.mem_singleton] at hx
        subst hx
        norm_num)
    (by intro mu S w p h
        injection h with hw hp
        subst hw
        refine ⟨?_, by simp [wsum]⟩
        intro x hx
        simp only [List.mem_singleton] at hx
        subst hx
        norm_num)
    (by intro mu S ra w p h
        injection h with hw hp
        subst hw
        refine ⟨?_, by simp [wsum]⟩
        intro x hx
        simp only [List.mem_singleton] at hx
        subst hx
        norm_num)

end VnstockMcp
